import Mathlib

/-!
Verification of the usage quota enforcement and subscription consistency
engine of the suraksha backend. The definitions below are shallow embeddings
of the Python sources under app/: plan normalization and the plan limit
tables come from app/core/features.py, the atomic counter primitives from
app/services/redis_store.py, the quota enforcer from
app/services/plan_limits.py, and the subscription event processing from
app/services/subscription.py together with app/routes/webhooks.py.
Machine timestamps are modeled as UTC epoch seconds (Int); the timezone
normalization performed by the code is the identity in this model.
-/

set_option maxHeartbeats 1000000

namespace Suraksha

/-! Plan tiers and alias normalization, from app/core/features.py. -/

def TIER_FREE : String := "GO_FREE"

def TIER_PRO : String := "GO_PRO"

def TIER_ULTRA : String := "GO_ULTRA"

def PLAN_FAMILY_BASIC : String := "FAMILY_BASIC"

def PLAN_FAMILY_PRO : String := "FAMILY_PRO"

/-- PLAN_ALIASES table (app/core/features.py lines 51-69). -/
def PLAN_ALIASES : List (String × String) :=
  [("FREE", TIER_FREE), ("GO FREE", TIER_FREE), ("GO_FREE", TIER_FREE),
   ("GOFREE", TIER_FREE),
   ("PAID", TIER_PRO), ("PRO", TIER_PRO), ("GO PRO", TIER_PRO),
   ("GO_PRO", TIER_PRO), ("GOPRO", TIER_PRO), ("PREMIUM", TIER_PRO),
   ("ULTRA", TIER_ULTRA), ("GO ULTRA", TIER_ULTRA), ("GO_ULTRA", TIER_ULTRA),
   ("GOULTRA", TIER_ULTRA), ("ENTERPRISE", TIER_ULTRA),
   (PLAN_FAMILY_BASIC, PLAN_FAMILY_BASIC), (PLAN_FAMILY_PRO, PLAN_FAMILY_PRO)]

/-- aliasLookup models Python dict lookup on the alias table. -/
def aliasLookup : List (String × String) → String → Option String
  | [], _ => none
  | (k, v) :: rest, s => if k = s then some v else aliasLookup rest s

/-- pyStrip models str.strip: drop leading and trailing whitespace. -/
def pyStrip (s : String) : String :=
  ⟨((s.data.dropWhile Char.isWhitespace).reverse.dropWhile Char.isWhitespace).reverse⟩

/-- pyUpper models str.upper over the ASCII range. -/
def pyUpper (s : String) : String :=
  ⟨s.data.map Char.toUpper⟩

/-- normalize_plan (app/core/features.py lines 191-195): a falsy input (None
or the empty string) gives the free tier; otherwise the input is stripped,
upper-cased and looked up in the alias table with the free tier as the
fallback for unknown values. -/
def normalize_plan : Option String → String
  | none => TIER_FREE
  | some s =>
    if s = "" then TIER_FREE
    else (aliasLookup PLAN_ALIASES (pyUpper (pyStrip s))).getD TIER_FREE

/-- Limit enumeration (app/core/features.py lines 21-41). -/
inductive Limit
  | TRUSTED_CONTACT_MAX
  | THREAT_DAILY
  | EMAIL_MONTHLY
  | PASSWORD_MONTHLY
  | QR_WEEKLY
  | AI_IMAGE_LIFETIME
  | ANALYZE_DAILY_THREAT
  | ANALYZE_DAILY_EMAIL
  | ANALYZE_DAILY_PASSWORD
  | QR_WEEKLY_SCAN
  | QR_WEEKLY_REPORT
  | EMAIL_MAX_LENGTH
  | EMAIL_GLOBAL_COOLDOWN_SECONDS
  | EMAIL_DUPLICATE_SCAN_BLOCK_SECONDS
  | EMAIL_RATE_WINDOW_SECONDS
  | EMAIL_RATE_LIMIT_USER
  | EMAIL_RATE_LIMIT_IP
  | AI_INSIGHT_RATE_WINDOW_SECONDS
  | AI_INSIGHT_RATE_LIMIT_IP
  | BREACH_EMAIL_CACHE_TTL_SECONDS
  deriving DecidableEq, Repr

/-- freeLimits is the PLAN_LIMITS row for GO_FREE; a key absent from the row
and a key mapped to None both yield none, exactly like dict.get in
get_plan_limit. -/
def freeLimits : Limit → Option Nat
  | .TRUSTED_CONTACT_MAX => some 1
  | .THREAT_DAILY => some 3
  | .EMAIL_MONTHLY => some 3
  | .PASSWORD_MONTHLY => some 3
  | .QR_WEEKLY => some 3
  | .AI_IMAGE_LIFETIME => some 1
  | .ANALYZE_DAILY_THREAT => some 3
  | .ANALYZE_DAILY_EMAIL => some 3
  | .ANALYZE_DAILY_PASSWORD => some 3
  | .QR_WEEKLY_SCAN => some 3
  | .QR_WEEKLY_REPORT => some 3
  | _ => none

/-- proLimits is the PLAN_LIMITS row for GO_PRO. -/
def proLimits : Limit → Option Nat
  | .TRUSTED_CONTACT_MAX => some 1
  | .ANALYZE_DAILY_THREAT => some 100
  | .ANALYZE_DAILY_EMAIL => some 20
  | .ANALYZE_DAILY_PASSWORD => some 20
  | _ => none

/-- ultraLimits is the PLAN_LIMITS row for GO_ULTRA. -/
def ultraLimits : Limit → Option Nat
  | .TRUSTED_CONTACT_MAX => some 1
  | .ANALYZE_DAILY_THREAT => some 100
  | .ANALYZE_DAILY_EMAIL => some 20
  | .ANALYZE_DAILY_PASSWORD => some 20
  | _ => none

/-- familyBasicLimits is the PLAN_LIMITS row for FAMILY_BASIC. -/
def familyBasicLimits : Limit → Option Nat
  | .TRUSTED_CONTACT_MAX => some 3
  | .THREAT_DAILY => some 3
  | .EMAIL_MONTHLY => some 3
  | .PASSWORD_MONTHLY => some 3
  | .QR_WEEKLY => some 3
  | .AI_IMAGE_LIFETIME => some 1
  | .ANALYZE_DAILY_THREAT => some 10
  | .ANALYZE_DAILY_EMAIL => some 3
  | .ANALYZE_DAILY_PASSWORD => some 3
  | .QR_WEEKLY_SCAN => some 3
  | .QR_WEEKLY_REPORT => some 3
  | _ => none

/-- familyProLimits is the PLAN_LIMITS row for FAMILY_PRO. -/
def familyProLimits : Limit → Option Nat
  | .TRUSTED_CONTACT_MAX => some 6
  | .THREAT_DAILY => some 3
  | .EMAIL_MONTHLY => some 3
  | .PASSWORD_MONTHLY => some 3
  | .QR_WEEKLY => some 3
  | .AI_IMAGE_LIFETIME => some 1
  | .ANALYZE_DAILY_THREAT => some 10
  | .ANALYZE_DAILY_EMAIL => some 3
  | .ANALYZE_DAILY_PASSWORD => some 3
  | .QR_WEEKLY_SCAN => some 3
  | .QR_WEEKLY_REPORT => some 3
  | _ => none

/-- PLAN_LIMITS table (app/core/features.py lines 109-175); for a plan key
outside the table the GO_FREE row is used, mirroring the dict.get fallback in
get_plan_limit. -/
def PLAN_LIMITS (plan : String) : Limit → Option Nat :=
  if plan = TIER_FREE then freeLimits
  else if plan = TIER_PRO then proLimits
  else if plan = TIER_ULTRA then ultraLimits
  else if plan = PLAN_FAMILY_BASIC then familyBasicLimits
  else if plan = PLAN_FAMILY_PRO then familyProLimits
  else freeLimits

/-- get_plan_limit (app/core/features.py lines 210-217) applied to a raw plan
string or the plan attribute of a user object. -/
def get_plan_limit (user_or_plan : Option String) (limit : Limit) : Option Nat :=
  PLAN_LIMITS (normalize_plan user_or_plan) limit

/-! Atomic fixed-bucket counter, from app/services/redis_store.py. -/

/-- BucketState is the redis state of one fixed-bucket counter key: the
integer value (0 when the key is absent) and the ttl attached to the key. -/
structure BucketState where
  value : Nat
  ttl : Option Nat
  deriving DecidableEq, Repr

/-- BucketState.empty is the state of an absent key (the first call of a
calendar period finds the bucket counter at zero). -/
def BucketState.empty : BucketState := ⟨0, none⟩

/-- Lua script of _allow_window_limit_atomic (redis_store.py lines 78-91):
INCR the key, set EXPIRE only when the post-increment value is 1 (first call
of the period), and allow exactly when the post-increment value is at most
the limit. The script executes as one atomic unit, so any interleaving of
concurrent callers is a serialization of complete script runs. -/
def _allow_window_limit_atomic (limit ttl_seconds : Nat) (st : BucketState) :
    Bool × BucketState :=
  let current := st.value + 1
  let st2 : BucketState :=
    { value := current, ttl := if current = 1 then some ttl_seconds else st.ttl }
  (decide (current ≤ limit), st2)

/-- allow_daily_limit (redis_store.py lines 94-97): within a single UTC day
every call hashes to the same bucket key, so each call is one run of the
atomic script with the remaining-seconds-of-day ttl. -/
def allow_daily_limit (limit ttl : Nat) (st : BucketState) : Bool × BucketState :=
  _allow_window_limit_atomic limit ttl st

/-- allow_weekly_limit (redis_store.py lines 100-105): same atomic script on
the ISO-week bucket key. -/
def allow_weekly_limit (limit ttl : Nat) (st : BucketState) : Bool × BucketState :=
  _allow_window_limit_atomic limit ttl st

/-- allow_monthly_limit (redis_store.py lines 108-111): same atomic script on
the year-month bucket key. -/
def allow_monthly_limit (limit ttl : Nat) (st : BucketState) : Bool × BucketState :=
  _allow_window_limit_atomic limit ttl st

/-- runFixedBucket executes n sequential runs of the atomic script against a
single bucket key and collects the allowed results. Because the script is
atomic, n concurrent callers inside one calendar period always produce such a
serialized run, whatever the interleaving. -/
def runFixedBucket (limit ttl : Nat) : Nat → BucketState → List Bool
  | 0, _ => []
  | n + 1, st =>
    let r := _allow_window_limit_atomic limit ttl st
    r.1 :: runFixedBucket limit ttl n r.2

theorem runFixedBucket_count_true (limit ttl : Nat) :
    ∀ (n : Nat) (st : BucketState),
      (runFixedBucket limit ttl n st).count true = min n (limit - st.value) := by
  intro n
  induction n with
  | zero => intro st; simp [runFixedBucket]
  | succ k ih =>
    intro st
    simp only [runFixedBucket, _allow_window_limit_atomic, List.count_cons]
    rw [ih]
    by_cases h : st.value + 1 ≤ limit <;> simp [h] <;> omega

theorem runFixedBucket_length (limit ttl : Nat) :
    ∀ (n : Nat) (st : BucketState), (runFixedBucket limit ttl n st).length = n := by
  intro n
  induction n with
  | zero => intro st; simp [runFixedBucket]
  | succ k ih => intro st; simp [runFixedBucket, ih]

theorem count_true_add_count_false (l : List Bool) :
    l.count true + l.count false = l.length := by
  induction l with
  | nil => simp
  | cons b t ih =>
    cases b <;> simp [List.count_cons] <;> omega

/-- C1: for a quota key with ceiling K, across any sequence of N runs of the
fixed-bucket increment primitive within the same calendar period (any
interleaving of concurrent callers serializes into such a run, because
increment, first-call expiry set and ceiling comparison form one atomic
scripted unit), exactly min(N, K) calls return allowed and the remaining
N - min(N, K) calls return not allowed. -/
theorem fixed_bucket_exactly_min_allowed (K ttl N : Nat) :
    ((runFixedBucket K ttl N BucketState.empty).count true = min N K) ∧
    ((runFixedBucket K ttl N BucketState.empty).count false = N - min N K) ∧
    ((runFixedBucket K ttl N BucketState.empty).length = N) := by
  have h1 := runFixedBucket_count_true K ttl N BucketState.empty
  have h2 := runFixedBucket_length K ttl N BucketState.empty
  have h3 := count_true_add_count_false (runFixedBucket K ttl N BucketState.empty)
  have hv : BucketState.empty.value = 0 := rfl
  rw [hv, Nat.sub_zero] at h1
  exact ⟨h1, by omega, h2⟩

/-! Subscription state, from app/services/subscription.py. -/

def STATUS_ACTIVE : String := "ACTIVE"

def STATUS_EXPIRED : String := "EXPIRED"

def STATUS_CANCELED : String := "CANCELED"

def STATUS_GRACE : String := "GRACE"

/-- Account is the subscription-relevant part of the users row
(app/models/user.py): plan string, status, expiry timestamp, timestamp of the
last applied subscription event, and the one-time first-upgrade flag.
Timestamps are UTC epoch seconds. -/
structure Account where
  plan : Option String
  subscription_status : String
  subscription_expires_at : Option Int
  last_subscription_event_at : Option Int
  first_upgrade_used : Bool
  deriving DecidableEq, Repr

/-- resolve_effective_plan (subscription.py lines 109-128): free stays free;
a paid plan with no stored expiry is kept; a paid plan whose expiry is
strictly before now resolves to the free tier; otherwise the normalized
stored plan is returned. now is the current UTC time. -/
def resolve_effective_plan (now : Int) (user : Account) : String :=
  let current_plan := normalize_plan user.plan
  if current_plan = TIER_FREE then TIER_FREE
  else
    match user.subscription_expires_at with
    | none => current_plan
    | some expires_at => if expires_at < now then TIER_FREE else current_plan

/-- is_out_of_order_event (subscription.py lines 131-146): an event is out of
order exactly when it carries a timestamp, the account records a
last-applied-event timestamp, and the event timestamp is strictly older. -/
def is_out_of_order_event (user : Account) (incoming_event_at : Option Int) : Bool :=
  match incoming_event_at with
  | none => false
  | some event_at =>
    match user.last_subscription_event_at with
    | none => false
    | some last_seen => decide (event_at < last_seen)

/-- Failure classifies how a request handler terminates abnormally: an
HTTPException with a status code, or an unhandled exception (which FastAPI
surfaces as a 500). -/
inductive Failure
  | http (code : Nat)
  | exception
  deriving DecidableEq, Repr

/-- apply_subscription_update (subscription.py lines 149-206), restricted to
its effect on the account row: re-validate the ACTIVE-paid-needs-expiry rule,
write plan, status and expiry, set the one-time first-upgrade flag on the
first transition from the free tier to a paid tier, and record the event
timestamp as last applied. The audit-log write on this path is modeled at
the webhook level. -/
def apply_subscription_update (user : Account) (plan subscription_status : String)
    (subscription_expires_at event_at : Option Int) : Except Failure Account :=
  if subscription_status = STATUS_ACTIVE ∧ normalize_plan (some plan) ≠ TIER_FREE
      ∧ subscription_expires_at = none then
    .error (.http 400)
  else
    let old_plan_normalized := normalize_plan user.plan
    let new_plan_normalized := normalize_plan (some plan)
    let u1 : Account :=
      { user with
        plan := some plan
        subscription_status := subscription_status
        subscription_expires_at := subscription_expires_at }
    let u2 : Account :=
      if old_plan_normalized = TIER_FREE
          ∧ (new_plan_normalized = TIER_PRO ∨ new_plan_normalized = TIER_ULTRA)
          ∧ user.first_upgrade_used = false then
        { u1 with first_upgrade_used := true }
      else u1
    let u3 : Account :=
      match event_at with
      | some t => { u2 with last_subscription_event_at := some t }
      | none => u2
    .ok u3

/-- maybe_auto_downgrade_expired_subscription (subscription.py lines
209-244), restricted to its effect on the account row: when the effective
plan diverges from the normalized stored plan and the stored plan is not
free, rewrite the record to the free tier with status EXPIRED; otherwise the
record is returned unchanged. -/
def maybe_auto_downgrade_expired_subscription (now : Int) (user : Account) : Account :=
  let effective_plan := resolve_effective_plan now user
  let normalized_plan := normalize_plan user.plan
  if effective_plan = normalized_plan then user
  else if normalized_plan = TIER_FREE then user
  else { user with plan := some TIER_FREE, subscription_status := STATUS_EXPIRED }

/-! Webhook processing, from app/routes/webhooks.py. -/

/-- ParsedEvent is the canonical event produced by parse_revenuecat_payload
(subscription.py lines 46-106): unique provider event id, event type,
normalized plan, derived status, derived expiry and the provider-declared
event timestamp (parse always yields one, defaulting to receipt time). -/
structure ParsedEvent where
  event_id : String
  event_type : String
  plan : String
  subscription_status : String
  subscription_expires_at : Option Int
  event_at : Int
  deriving DecidableEq, Repr

/-- ProcStatus is the processing_status column of a ledger row
(app/models/subscription_event.py). -/
inductive ProcStatus
  | RECEIVED
  | APPLIED
  | IGNORED_OUT_OF_ORDER
  deriving DecidableEq, Repr

/-- LedgerRow is a subscription_events row keyed by the unique provider
event id. -/
structure LedgerRow where
  event_id : String
  processing_status : ProcStatus
  deriving DecidableEq, Repr

/-- SysState is the transactional state a webhook call can touch: the locked
account row and the event ledger. -/
structure SysState where
  account : Account
  ledger : List LedgerRow
  deriving DecidableEq, Repr

/-- WebhookResponse is the common shape of the success response of the
webhook handler; the fresh-application response additionally echoes user
fields, which no claim depends on. -/
structure WebhookResponse where
  status : String
  idempotent : Bool
  event_id : String
  deriving DecidableEq, Repr

/-- WriteResult is the outcome of a best-effort side write (audit log or RSS
ingestion): it either succeeds or raises. -/
inductive WriteResult
  | ok
  | fail
  deriving DecidableEq, Repr

/-- webhookApplyStep is the ordering decision inside the webhook transaction
(webhooks.py lines 89-103): an out-of-order event leaves the account
untouched and marks the row IGNORED_OUT_OF_ORDER; otherwise the update is
applied and the row is marked APPLIED. -/
def webhookApplyStep (user : Account) (ev : ParsedEvent) :
    Except Failure (Account × ProcStatus) :=
  if is_out_of_order_event user (some ev.event_at) then
    .ok (user, .IGNORED_OUT_OF_ORDER)
  else
    match apply_subscription_update user ev.plan ev.subscription_status
        ev.subscription_expires_at (some ev.event_at) with
    | .error e => .error e
    | .ok u => .ok (u, .APPLIED)

/-- revenuecat_webhook (webhooks.py lines 58-140), from the point where the
signature is verified, the payload parsed and the account row locked. The
ledger insert collides exactly when a row with the same event id exists; the
IntegrityError handler rolls the transaction back and returns the idempotent
acknowledgment. On a fresh insert, the unguarded in-transaction audit write
(log_subscription_webhook, lines 80-87) runs next: if it raises, the
exception propagates, the transaction is rolled back and the request fails.
Otherwise the ordering step decides IGNORED_OUT_OF_ORDER versus APPLIED and
the transaction commits the ledger row and any account change atomically. -/
def revenuecat_webhook (st : SysState) (ev : ParsedEvent) (log_write : WriteResult) :
    SysState × Except Failure WebhookResponse :=
  if st.ledger.any (fun r => decide (r.event_id = ev.event_id)) then
    (st, .ok ⟨"ok", true, ev.event_id⟩)
  else
    match log_write with
    | .fail => (st, .error .exception)
    | .ok =>
      match webhookApplyStep st.account ev with
      | .error e => (st, .error e)
      | .ok (u, ps) =>
        ({ account := u, ledger := st.ledger ++ [⟨ev.event_id, ps⟩] },
         .ok ⟨"ok", false, ev.event_id⟩)

/-! Quota enforcer, from app/services/plan_limits.py. -/

/-- LimitType enumeration (plan_limits.py lines 25-30). -/
inductive LimitType
  | THREAT_DAILY
  | EMAIL_MONTHLY
  | PASSWORD_MONTHLY
  | QR_WEEKLY
  | AI_IMAGE_LIFETIME
  deriving DecidableEq, Repr

/-- LimitConfig is one entry of the _LIMIT_TO_CONFIG table. -/
structure LimitConfig where
  plan_limit : Limit
  window : String
  feature : Option String
  deriving DecidableEq, Repr

/-- _LIMIT_TO_CONFIG table (plan_limits.py lines 33-63). -/
def _LIMIT_TO_CONFIG : LimitType → LimitConfig
  | .THREAT_DAILY => ⟨.THREAT_DAILY, "daily", some "THREAT_SCAN"⟩
  | .EMAIL_MONTHLY => ⟨.EMAIL_MONTHLY, "monthly", some "EMAIL_BREACH_COUNT"⟩
  | .PASSWORD_MONTHLY => ⟨.PASSWORD_MONTHLY, "monthly", some "PASSWORD_SCAN"⟩
  | .QR_WEEKLY => ⟨.QR_WEEKLY, "weekly", some "QR_UNLIMITED"⟩
  | .AI_IMAGE_LIFETIME => ⟨.AI_IMAGE_LIFETIME, "lifetime", some "AI_IMAGE_SCAN"⟩

/-- RResult is the outcome of one redis round trip: a RedisError, or a
returned boolean. -/
inductive RResult
  | err
  | val (b : Bool)
  deriving DecidableEq, Repr

/-- RedisOracle fixes, for one enforce_limit call, the outcome each counter
store round trip would have if reached: the is_cooldown_active check, the
fixed-bucket increment, and the acquire_cooldown write. -/
structure RedisOracle where
  cooldown_active : RResult
  bucket_allowed : RResult
  cooldown_acquire : RResult
  deriving DecidableEq, Repr

/-- EnforceState is the cross-call state an enforce_limit call can read or
write: the plan attribute of the user, the in-memory ai_image_lifetime_used
attribute, the persisted ai_image_lifetime_used column, and whether the
post-breach cooldown key has been written. -/
structure EnforceState where
  user_plan : Option String
  mem_ai_used : Nat
  db_ai_used : Nat
  cooldown_set : Bool
  deriving DecidableEq, Repr

/-- EnforceOutcome is how one enforce_limit call terminates: a normal return
(the action is allowed), an HTTPException with a status code, or a
RuntimeError. -/
inductive EnforceOutcome
  | allowed
  | http (code : Nat)
  | runtime_error
  deriving DecidableEq, Repr

/-- enforce_core is the body of enforce_limit past the ceiling lookup
(plan_limits.py lines 154-238), with max_allowed the resolved numeric
ceiling. A RedisError on the cooldown-active check raises 503; an active
cooldown raises the structured 429. The AI_IMAGE_LIFETIME kind runs the
single conditional UPDATE that increments the persisted counter only where
it is strictly below the ceiling; zero affected rows acquires the cooldown
(RedisError there raises 503) and raises 429, one affected row also bumps
the in-memory counter. The windowed kinds dispatch on the configured window
to the fixed-bucket primitive; a RedisError raises 503, a denial acquires
the cooldown (RedisError raises 503) and raises 429. The audit write inside
_raise_plan_limit_exceeded is swallowed by its own try block and cannot
change the outcome (see _raise_plan_limit_exceeded), so it is elided here. -/
def enforce_core (lt : LimitType) (has_db : Bool) (redis : RedisOracle)
    (st : EnforceState) (max_allowed : Nat) : EnforceState × EnforceOutcome :=
  match redis.cooldown_active with
  | .err => (st, .http 503)
  | .val true => (st, .http 429)
  | .val false =>
    if lt = LimitType.AI_IMAGE_LIFETIME then
      if has_db = false then (st, .runtime_error)
      else if st.db_ai_used < max_allowed then
        ({ st with
            db_ai_used := st.db_ai_used + 1
            mem_ai_used := st.mem_ai_used + 1 }, .allowed)
      else
        match redis.cooldown_acquire with
        | .err => (st, .http 503)
        | .val _ => ({ st with cooldown_set := true }, .http 429)
    else
      if (_LIMIT_TO_CONFIG lt).window = "daily" ∨ (_LIMIT_TO_CONFIG lt).window = "weekly"
          ∨ (_LIMIT_TO_CONFIG lt).window = "monthly" then
        match redis.bucket_allowed with
        | .err => (st, .http 503)
        | .val true => (st, .allowed)
        | .val false =>
          match redis.cooldown_acquire with
          | .err => (st, .http 503)
          | .val _ => ({ st with cooldown_set := true }, .http 429)
      else (st, .runtime_error)

/-- enforce_limit (plan_limits.py lines 135-239): exempt plans (GO_PRO,
GO_ULTRA) return before any counter access, as does a missing numeric
ceiling; otherwise the resolved ceiling is handed to enforce_core, the body
past the lookup. -/
def enforce_limit (lt : LimitType) (has_db : Bool) (redis : RedisOracle)
    (st : EnforceState) : EnforceState × EnforceOutcome :=
  let plan := normalize_plan st.user_plan
  if plan = TIER_PRO ∨ plan = TIER_ULTRA then (st, .allowed)
  else
    match get_plan_limit (some plan) (_LIMIT_TO_CONFIG lt).plan_limit with
    | none => (st, .allowed)
    | some max_allowed => enforce_core lt has_db redis st max_allowed

/-- enforce_iter chains enforce_limit calls, one per oracle, threading the
state; it models any sequence of requests from one subject. -/
def enforce_iter (lt : LimitType) (has_db : Bool) :
    List RedisOracle → EnforceState → EnforceState
  | [], st => st
  | o :: os, st => enforce_iter lt has_db os (enforce_limit lt has_db o st).1

/-- _log_plan_limit_exceeded (plan_limits.py lines 68-97): the audit write is
wrapped in a blanket try block whose handler discards the failure, so the
call always returns normally. -/
def _log_plan_limit_exceeded (audit_write : WriteResult) : Except Failure Unit :=
  match audit_write with
  | .ok => .ok ()
  | .fail => .ok ()

/-- _raise_plan_limit_exceeded (plan_limits.py lines 100-132): build the
upgrade payload, attempt the best-effort audit write, then raise the
structured HTTP 429 regardless of how the write went. -/
def _raise_plan_limit_exceeded (audit_write : WriteResult) : EnforceOutcome :=
  match _log_plan_limit_exceeded audit_write with
  | .ok _ => .http 429
  | .error _ => .http 429

/-! Configuration and startup, from app/main.py, app/services/redis_store.py
and app/services/subscription.py. -/

/-- Config is the pair of required configuration values: the counter-store
connection string REDIS_URL and the webhook shared secret
REVENUECAT_WEBHOOK_SECRET; none models an unset variable. -/
structure Config where
  redis_url : Option String
  revenuecat_webhook_secret : Option String
  deriving DecidableEq, Repr

/-- startup embeds the startup path of app/main.py (lines 54-65 and 147-152):
the only startup hook wraps RSS ingestion in a blanket try block and logs on
failure, reads neither REDIS_URL nor REVENUECAT_WEBHOOK_SECRET, and never
raises, so application startup succeeds whatever the configuration. -/
def startup (cfg : Config) (rss_ingest : WriteResult) : Except Unit Unit :=
  match cfg, rss_ingest with
  | _, .ok => .ok ()
  | _, .fail => .ok ()

/-- _require_redis_url (redis_store.py lines 18-22): raises RuntimeError when
REDIS_URL is unset or empty; it is reached only lazily, from get_redis on the
first counter-store use inside a request. -/
def _require_redis_url (cfg : Config) : Except Unit String :=
  match cfg.redis_url with
  | none => .error ()
  | some u => if u = "" then .error () else .ok u

/-- webhook_secret_check is the head of verify_revenuecat_signature
(subscription.py lines 26-29): when the shared secret is unset or empty the
handler raises HTTPException 500 while serving that individual request. -/
def webhook_secret_check (cfg : Config) : Except Failure Unit :=
  match cfg.revenuecat_webhook_secret with
  | none => .error (.http 500)
  | some s => if s = "" then .error (.http 500) else .ok ()

/-! Claim theorems. -/

/-- C9: normalize_plan is a total function that maps None, the empty string,
and every string whose stripped upper-cased form is absent from the plan
alias table to the free tier GO_FREE; consequently a plan-limit lookup for
such an unknown plan value uses the GO_FREE row, so quota checks and feature
gates built on it treat an unknown or missing plan as the free tier. -/
theorem normalize_plan_unknown_is_free (s : String)
    (h : aliasLookup PLAN_ALIASES (pyUpper (pyStrip s)) = none) :
    normalize_plan none = TIER_FREE ∧
    normalize_plan (some "") = TIER_FREE ∧
    normalize_plan (some s) = TIER_FREE ∧
    (∀ l : Limit, get_plan_limit (some s) l = PLAN_LIMITS TIER_FREE l) := by
  have hs : normalize_plan (some s) = TIER_FREE := by
    unfold normalize_plan
    by_cases he : s = ""
    · simp [he]
    · simp [he, h]
  refine ⟨rfl, rfl, hs, ?_⟩
  intro l
  unfold get_plan_limit
  rw [hs]

/-- C9 witness: a concrete unknown plan string resolves to the free tier. -/
theorem normalize_plan_unknown_is_free_witness :
    normalize_plan (some " mystery tier ") = TIER_FREE :=
  (normalize_plan_unknown_is_free " mystery tier " (by decide)).2.2.1

/-- C10: an account stored on a paid tier with a null expiry timestamp keeps
its paid entitlements: resolve_effective_plan returns the normalized stored
paid plan and the lazy-downgrade read path leaves the record unchanged. -/
theorem null_expiry_paid_plan_retained (now : Int) (user : Account)
    (hpaid : normalize_plan user.plan ≠ TIER_FREE)
    (hnull : user.subscription_expires_at = none) :
    resolve_effective_plan now user = normalize_plan user.plan ∧
    maybe_auto_downgrade_expired_subscription now user = user := by
  have hres : resolve_effective_plan now user = normalize_plan user.plan := by
    unfold resolve_effective_plan
    simp [hpaid, hnull]
  refine ⟨hres, ?_⟩
  unfold maybe_auto_downgrade_expired_subscription
  simp [hres]

/-- C10 witness at a concrete paid account with a null expiry. -/
theorem null_expiry_paid_plan_retained_witness :
    resolve_effective_plan 1000 ⟨some "GO_PRO", "ACTIVE", none, some 5, true⟩ =
      normalize_plan (some "GO_PRO") ∧
    maybe_auto_downgrade_expired_subscription 1000
      ⟨some "GO_PRO", "ACTIVE", none, some 5, true⟩ =
      ⟨some "GO_PRO", "ACTIVE", none, some 5, true⟩ :=
  null_expiry_paid_plan_retained 1000 ⟨some "GO_PRO", "ACTIVE", none, some 5, true⟩
    (by decide) rfl

/-- C5: an account on a paid tier whose stored expiry is strictly in the past
resolves to the free tier, and the lazy-downgrade read path rewrites the
stored record to plan GO_FREE with status EXPIRED; an account stored on the
free tier, or a paid account whose expiry has not passed, is returned
unchanged. -/
theorem lazy_downgrade_expired_paid (now : Int) (user : Account) :
    (∀ t : Int, normalize_plan user.plan ≠ TIER_FREE →
       user.subscription_expires_at = some t → t < now →
       resolve_effective_plan now user = TIER_FREE ∧
       maybe_auto_downgrade_expired_subscription now user =
         { user with plan := some TIER_FREE, subscription_status := STATUS_EXPIRED }) ∧
    (normalize_plan user.plan = TIER_FREE →
       resolve_effective_plan now user = TIER_FREE ∧
       maybe_auto_downgrade_expired_subscription now user = user) ∧
    (∀ t : Int, user.subscription_expires_at = some t → ¬ t < now →
       resolve_effective_plan now user = normalize_plan user.plan ∧
       maybe_auto_downgrade_expired_subscription now user = user) := by
  refine ⟨?_, ?_, ?_⟩
  · intro t hpaid hexp hlt
    have hres : resolve_effective_plan now user = TIER_FREE := by
      unfold resolve_effective_plan
      simp [hpaid, hexp, hlt]
    refine ⟨hres, ?_⟩
    unfold maybe_auto_downgrade_expired_subscription
    rw [hres]
    simp [hpaid, Ne.symm hpaid]
  · intro hfree
    have hres : resolve_effective_plan now user = TIER_FREE := by
      unfold resolve_effective_plan
      simp [hfree]
    refine ⟨hres, ?_⟩
    unfold maybe_auto_downgrade_expired_subscription
    rw [hres, hfree]
    simp
  · intro t hexp hnlt
    have hres : resolve_effective_plan now user = normalize_plan user.plan := by
      unfold resolve_effective_plan
      by_cases hfree : normalize_plan user.plan = TIER_FREE
      · simp [hfree]
      · simp [hfree, hexp, hnlt]
    refine ⟨hres, ?_⟩
    unfold maybe_auto_downgrade_expired_subscription
    rw [hres]
    simp

/-- C5 witness: a GO_PRO account with expiry 50 read at time 100 resolves to
the free tier and is rewritten to GO_FREE with status EXPIRED, while the same
account read at time 10 is unchanged. -/
theorem lazy_downgrade_expired_paid_witness :
    (resolve_effective_plan 100 ⟨some "GO_PRO", "ACTIVE", some 50, none, false⟩ =
       TIER_FREE ∧
     maybe_auto_downgrade_expired_subscription 100
       ⟨some "GO_PRO", "ACTIVE", some 50, none, false⟩ =
       ⟨some TIER_FREE, STATUS_EXPIRED, some 50, none, false⟩) ∧
    (resolve_effective_plan 10 ⟨some "GO_PRO", "ACTIVE", some 50, none, false⟩ =
       normalize_plan (some "GO_PRO") ∧
     maybe_auto_downgrade_expired_subscription 10
       ⟨some "GO_PRO", "ACTIVE", some 50, none, false⟩ =
       ⟨some "GO_PRO", "ACTIVE", some 50, none, false⟩) :=
  ⟨(lazy_downgrade_expired_paid 100 ⟨some "GO_PRO", "ACTIVE", some 50, none, false⟩).1
     50 (by decide) rfl (by decide),
   (lazy_downgrade_expired_paid 10 ⟨some "GO_PRO", "ACTIVE", some 50, none, false⟩).2.2
     50 rfl (by decide)⟩

/-- C7 counterexample: with both required configuration values absent the
startup path still succeeds, while the missing webhook secret surfaces as an
HTTP 500 during an individual webhook request and the missing counter-store
url as a per-request RuntimeError; the service does not refuse to start. -/
theorem missing_config_service_still_starts :
    startup ⟨none, none⟩ WriteResult.ok = .ok () ∧
    webhook_secret_check ⟨none, none⟩ = .error (.http 500) ∧
    _require_redis_url ⟨none, none⟩ = .error () :=
  ⟨rfl, rfl, rfl⟩

/-- C7 amended: absence of the counter-store connection string or of the
webhook shared secret is not startup-fatal: the startup hook consults neither
value and always succeeds, and the absence instead surfaces per request — as
an HTTP 500 from the webhook signature check, and as a RuntimeError on the
first counter-store access inside a request. -/
theorem missing_config_surfaces_per_request (cfg : Config) (rss : WriteResult) :
    startup cfg rss = .ok () ∧
    (cfg.revenuecat_webhook_secret = none →
       webhook_secret_check cfg = .error (.http 500)) ∧
    (cfg.redis_url = none → _require_redis_url cfg = .error ()) := by
  refine ⟨?_, ?_, ?_⟩
  · cases rss <;> rfl
  · intro h; unfold webhook_secret_check; rw [h]
  · intro h; unfold _require_redis_url; rw [h]

/-- C7 amended witness at the fully absent configuration. -/
theorem missing_config_surfaces_per_request_witness :
    startup ⟨none, none⟩ WriteResult.fail = .ok () ∧
    webhook_secret_check ⟨none, none⟩ = .error (.http 500) ∧
    _require_redis_url ⟨none, none⟩ = .error () :=
  ⟨(missing_config_surfaces_per_request ⟨none, none⟩ WriteResult.fail).1,
   (missing_config_surfaces_per_request ⟨none, none⟩ WriteResult.fail).2.1 rfl,
   (missing_config_surfaces_per_request ⟨none, none⟩ WriteResult.fail).2.2 rfl⟩

/-- C8 counterexample: for a fresh event the webhook transaction succeeds
when the in-transaction audit write succeeds, but fails with a propagated
exception when the audit write raises — a logging failure does change the
outcome of the primary operation on the webhook applied path. -/
theorem webhook_log_failure_changes_outcome :
    (revenuecat_webhook ⟨⟨some "GO_FREE", "ACTIVE", none, none, false⟩, []⟩
       ⟨"evt_1", "INITIAL_PURCHASE", "GO_PRO", "ACTIVE", some 100, 10⟩
       WriteResult.fail).2 = .error .exception ∧
    (revenuecat_webhook ⟨⟨some "GO_FREE", "ACTIVE", none, none, false⟩, []⟩
       ⟨"evt_1", "INITIAL_PURCHASE", "GO_PRO", "ACTIVE", some 100, 10⟩
       WriteResult.ok).2 = .ok ⟨"ok", false, "evt_1"⟩ :=
  ⟨rfl, rfl⟩

/-- C8 amended: the two logging paths differ. On the quota-denial path the
audit write is guarded by a blanket handler, so a failure is discarded and
the denial raises the same structured 429 either way; on the webhook
applied/ignored path the in-transaction audit write is not guarded, so a
write failure propagates as an exception and aborts the webhook transaction
with the state unchanged. -/
theorem quota_log_guarded_webhook_log_unguarded
    (aw : WriteResult) (st : SysState) (ev : ParsedEvent)
    (hfresh : st.ledger.any (fun r => decide (r.event_id = ev.event_id)) = false) :
    _raise_plan_limit_exceeded aw = .http 429 ∧
    _raise_plan_limit_exceeded aw = _raise_plan_limit_exceeded WriteResult.ok ∧
    revenuecat_webhook st ev WriteResult.fail = (st, .error .exception) := by
  refine ⟨?_, ?_, ?_⟩
  · cases aw <;> rfl
  · cases aw <;> rfl
  · unfold revenuecat_webhook
    rw [hfresh]
    rfl

/-- C8 amended witness at a concrete failed audit write. -/
theorem quota_log_guarded_webhook_log_unguarded_witness :
    _raise_plan_limit_exceeded WriteResult.fail = .http 429 ∧
    revenuecat_webhook ⟨⟨some "GO_FREE", "ACTIVE", none, none, false⟩, []⟩
      ⟨"evt_9", "RENEWAL", "GO_PRO", "ACTIVE", some 100, 10⟩ WriteResult.fail =
      (⟨⟨some "GO_FREE", "ACTIVE", none, none, false⟩, []⟩, .error .exception) :=
  ⟨(quota_log_guarded_webhook_log_unguarded WriteResult.fail
      ⟨⟨some "GO_FREE", "ACTIVE", none, none, false⟩, []⟩
      ⟨"evt_9", "RENEWAL", "GO_PRO", "ACTIVE", some 100, 10⟩ rfl).1,
   (quota_log_guarded_webhook_log_unguarded WriteResult.fail
      ⟨⟨some "GO_FREE", "ACTIVE", none, none, false⟩, []⟩
      ⟨"evt_9", "RENEWAL", "GO_PRO", "ACTIVE", some 100, 10⟩ rfl).2.2⟩

theorem enforce_limit_nonexempt (lt : LimitType) (hdb : Bool) (redis : RedisOracle)
    (st : EnforceState) (K : Nat)
    (hpro : normalize_plan st.user_plan ≠ TIER_PRO)
    (hultra : normalize_plan st.user_plan ≠ TIER_ULTRA)
    (hK : get_plan_limit (some (normalize_plan st.user_plan))
        (_LIMIT_TO_CONFIG lt).plan_limit = some K) :
    enforce_limit lt hdb redis st = enforce_core lt hdb redis st K := by
  simp only [enforce_limit]
  rw [if_neg (fun h => h.elim hpro hultra), hK]

theorem enforce_core_user_plan (lt : LimitType) (hdb : Bool) (redis : RedisOracle)
    (st : EnforceState) (K : Nat) :
    ((enforce_core lt hdb redis st K).1).user_plan = st.user_plan := by
  unfold enforce_core
  repeat' split <;> try rfl

theorem enforce_limit_user_plan (lt : LimitType) (hdb : Bool) (redis : RedisOracle)
    (st : EnforceState) :
    ((enforce_limit lt hdb redis st).1).user_plan = st.user_plan := by
  simp only [enforce_limit]
  split
  · rfl
  · split
    · rfl
    · apply enforce_core_user_plan

theorem enforce_lifetime_db_step (hdb : Bool) (redis : RedisOracle)
    (st : EnforceState) (C : Nat)
    (hC : get_plan_limit (some (normalize_plan st.user_plan))
        Limit.AI_IMAGE_LIFETIME = some C) :
    ((enforce_limit .AI_IMAGE_LIFETIME hdb redis st).1).db_ai_used = st.db_ai_used ∨
    (st.db_ai_used < C ∧
      ((enforce_limit .AI_IMAGE_LIFETIME hdb redis st).1).db_ai_used = st.db_ai_used + 1) := by
  by_cases hex : normalize_plan st.user_plan = TIER_PRO
      ∨ normalize_plan st.user_plan = TIER_ULTRA
  · left
    simp only [enforce_limit]
    rw [if_pos hex]
  · push_neg at hex
    rw [enforce_limit_nonexempt .AI_IMAGE_LIFETIME hdb redis st C hex.1 hex.2 hC]
    unfold enforce_core
    cases hca : redis.cooldown_active with
    | err => left; rfl
    | val b =>
      cases b with
      | true => left; rfl
      | false =>
        rw [if_pos rfl]
        by_cases hdb2 : hdb = false
        · rw [if_pos hdb2]; left; rfl
        · rw [if_neg hdb2]
          by_cases hlt : st.db_ai_used < C
          · rw [if_pos hlt]; right; exact ⟨hlt, rfl⟩
          · rw [if_neg hlt]
            cases redis.cooldown_acquire with
            | err => left; rfl
            | val b2 => left; rfl

theorem enforce_iter_lifetime_bounded (hdb : Bool) (C : Nat) :
    ∀ (oracles : List RedisOracle) (st : EnforceState),
      get_plan_limit (some (normalize_plan st.user_plan))
          Limit.AI_IMAGE_LIFETIME = some C →
      st.db_ai_used ≤ (enforce_iter .AI_IMAGE_LIFETIME hdb oracles st).db_ai_used ∧
      (st.db_ai_used ≤ C →
        (enforce_iter .AI_IMAGE_LIFETIME hdb oracles st).db_ai_used ≤ C) := by
  intro oracles
  induction oracles with
  | nil => intro st hC; exact ⟨le_refl _, fun h => h⟩
  | cons o os ih =>
    intro st hC
    have hplan := enforce_limit_user_plan .AI_IMAGE_LIFETIME hdb o st
    have hC2 : get_plan_limit
        (some (normalize_plan ((enforce_limit .AI_IMAGE_LIFETIME hdb o st).1).user_plan))
        Limit.AI_IMAGE_LIFETIME = some C := by
      rw [hplan]; exact hC
    have hrec := ih (enforce_limit .AI_IMAGE_LIFETIME hdb o st).1 hC2
    have hstep := enforce_lifetime_db_step hdb o st C hC
    simp only [enforce_iter]
    rcases hrec with ⟨h1, h2⟩
    constructor
    · rcases hstep with h | ⟨hlt, h⟩ <;> omega
    · intro hle
      rcases hstep with h | ⟨hlt, h⟩
      · exact h2 (by omega)
      · exact h2 (by omega)

/-- C4: for an account on a non-exempt plan with lifetime ceiling C, the
persisted lifetime counter ai_image_lifetime_used is mutated only by the
single conditional update that increments it by 1 where its value is
strictly below C, so over any sequence of calls it is monotonically
non-decreasing and never exceeds C; when the update affects zero rows
(ceiling already reached) the call sets the post-breach cooldown lock and
raises the structured 429 denial, and when it affects one row the in-memory
counter on the subject is incremented as well. -/
theorem lifetime_counter_invariant (redis : RedisOracle) (st : EnforceState) (C : Nat)
    (hpro : normalize_plan st.user_plan ≠ TIER_PRO)
    (hultra : normalize_plan st.user_plan ≠ TIER_ULTRA)
    (hC : get_plan_limit (some (normalize_plan st.user_plan))
        Limit.AI_IMAGE_LIFETIME = some C) :
    (redis.cooldown_active = .val false → st.db_ai_used < C →
       enforce_limit .AI_IMAGE_LIFETIME true redis st =
         ({ st with db_ai_used := st.db_ai_used + 1,
                    mem_ai_used := st.mem_ai_used + 1 }, .allowed)) ∧
    (∀ b : Bool, redis.cooldown_active = .val false → ¬ st.db_ai_used < C →
       redis.cooldown_acquire = .val b →
       enforce_limit .AI_IMAGE_LIFETIME true redis st =
         ({ st with cooldown_set := true }, .http 429)) ∧
    (∀ (hdb : Bool) (oracles : List RedisOracle),
       st.db_ai_used ≤ (enforce_iter .AI_IMAGE_LIFETIME hdb oracles st).db_ai_used ∧
       (st.db_ai_used ≤ C →
         (enforce_iter .AI_IMAGE_LIFETIME hdb oracles st).db_ai_used ≤ C)) := by
  refine ⟨?_, ?_, ?_⟩
  · intro hca hlt
    rw [enforce_limit_nonexempt .AI_IMAGE_LIFETIME true redis st C hpro hultra hC]
    unfold enforce_core
    rw [hca]
    simp [hlt]
  · intro b hca hge hcq
    rw [enforce_limit_nonexempt .AI_IMAGE_LIFETIME true redis st C hpro hultra hC]
    unfold enforce_core
    rw [hca]
    simp [hge, hcq]
  · intro hdb oracles
    exact enforce_iter_lifetime_bounded hdb C oracles st hC

/-- C4 witness: with ceiling 1 on a free-tier subject, the first call
increments the persisted and in-memory counters and is allowed, a call at
the ceiling sets the cooldown and is denied with 429, and three successive
calls leave the persisted counter at most 1. -/
theorem lifetime_counter_invariant_witness :
    (enforce_limit .AI_IMAGE_LIFETIME true ⟨.val false, .val true, .val true⟩
       ⟨some "GO_FREE", 0, 0, false⟩ = (⟨some "GO_FREE", 1, 1, false⟩, .allowed)) ∧
    (enforce_limit .AI_IMAGE_LIFETIME true ⟨.val false, .val true, .val true⟩
       ⟨some "GO_FREE", 1, 1, false⟩ = (⟨some "GO_FREE", 1, 1, true⟩, .http 429)) ∧
    (enforce_iter .AI_IMAGE_LIFETIME true
       [⟨.val false, .val true, .val true⟩, ⟨.val false, .val true, .val true⟩,
        ⟨.val false, .val true, .val true⟩]
       ⟨some "GO_FREE", 0, 0, false⟩).db_ai_used ≤ 1 :=
  ⟨(lifetime_counter_invariant ⟨.val false, .val true, .val true⟩
      ⟨some "GO_FREE", 0, 0, false⟩ 1 (by decide) (by decide) rfl).1 rfl (by decide),
   (lifetime_counter_invariant ⟨.val false, .val true, .val true⟩
      ⟨some "GO_FREE", 1, 1, false⟩ 1 (by decide) (by decide) rfl).2.1 true rfl
      (by decide) rfl,
   ((lifetime_counter_invariant ⟨.val false, .val true, .val true⟩
      ⟨some "GO_FREE", 0, 0, false⟩ 1 (by decide) (by decide) rfl).2.2 true
      [⟨.val false, .val true, .val true⟩, ⟨.val false, .val true, .val true⟩,
       ⟨.val false, .val true, .val true⟩]).2 (by decide)⟩

/-- C6: for a call on a non-exempt plan with a numeric ceiling, every
counter-store failure on an operation the call performs fails closed with
HTTP 503 — at the cooldown-active check, at the fixed-bucket increment of
the windowed kinds, and at the cooldown acquisition after a denial (windowed
or lifetime) — and the call returns normally (allow) only when the cooldown
check succeeded reporting no active cooldown and, for windowed kinds, the
fixed-bucket increment succeeded reporting allowed; an infrastructure
failure is never converted into an allow. -/
theorem counter_store_failure_fails_closed (lt : LimitType) (hdb : Bool)
    (redis : RedisOracle) (st : EnforceState) (K : Nat)
    (hpro : normalize_plan st.user_plan ≠ TIER_PRO)
    (hultra : normalize_plan st.user_plan ≠ TIER_ULTRA)
    (hK : get_plan_limit (some (normalize_plan st.user_plan))
        (_LIMIT_TO_CONFIG lt).plan_limit = some K) :
    (redis.cooldown_active = .err → enforce_limit lt hdb redis st = (st, .http 503)) ∧
    (lt ≠ .AI_IMAGE_LIFETIME → redis.cooldown_active = .val false →
       redis.bucket_allowed = .err →
       enforce_limit lt hdb redis st = (st, .http 503)) ∧
    (lt ≠ .AI_IMAGE_LIFETIME → redis.cooldown_active = .val false →
       redis.bucket_allowed = .val false → redis.cooldown_acquire = .err →
       enforce_limit lt hdb redis st = (st, .http 503)) ∧
    (lt = .AI_IMAGE_LIFETIME → redis.cooldown_active = .val false →
       ¬ st.db_ai_used < K → redis.cooldown_acquire = .err →
       enforce_limit lt true redis st = (st, .http 503)) ∧
    ((enforce_limit lt hdb redis st).2 = .allowed →
       redis.cooldown_active = .val false ∧
       (lt = .AI_IMAGE_LIFETIME ∨ redis.bucket_allowed = .val true)) := by
  have heval := enforce_limit_nonexempt lt hdb redis st K hpro hultra hK
  have heval_t := enforce_limit_nonexempt lt true redis st K hpro hultra hK
  refine ⟨?_, ?_, ?_, ?_, ?_⟩
  · intro hca
    rw [heval]
    unfold enforce_core
    rw [hca]
  · intro hne hca hba
    rw [heval]
    unfold enforce_core
    rw [hca]
    cases lt
    case AI_IMAGE_LIFETIME => exact absurd rfl hne
    all_goals simp [_LIMIT_TO_CONFIG, hba]
  · intro hne hca hba hcq
    rw [heval]
    unfold enforce_core
    rw [hca]
    cases lt
    case AI_IMAGE_LIFETIME => exact absurd rfl hne
    all_goals simp [_LIMIT_TO_CONFIG, hba, hcq]
  · intro hAI hca hge hcq
    subst hAI
    rw [heval_t]
    unfold enforce_core
    rw [hca]
    simp [hge, hcq]
  · intro hAll
    rw [heval] at hAll
    unfold enforce_core at hAll
    cases hca : redis.cooldown_active with
    | err => rw [hca] at hAll; simp at hAll
    | val b =>
      cases b with
      | true => rw [hca] at hAll; simp at hAll
      | false =>
        refine ⟨rfl, ?_⟩
        by_cases hAI : lt = LimitType.AI_IMAGE_LIFETIME
        · exact Or.inl hAI
        · right
          rw [hca] at hAll
          cases hba : redis.bucket_allowed with
          | err =>
            exfalso
            rw [hba] at hAll
            cases lt <;> simp_all [_LIMIT_TO_CONFIG]
          | val b2 =>
            cases b2 with
            | true => exact rfl
            | false =>
              exfalso
              rw [hba] at hAll
              cases hcq : redis.cooldown_acquire <;> rw [hcq] at hAll <;>
                cases lt <;> simp_all [_LIMIT_TO_CONFIG]

/-- C6 witness: on a free-tier subject with daily ceiling 3, a RedisError at
the cooldown check, at the fixed-bucket increment, or at the cooldown
acquisition after a denial each yields the 503 rate-limiter-unavailable
failure. -/
theorem counter_store_failure_fails_closed_witness :
    (enforce_limit .THREAT_DAILY true ⟨.err, .val true, .val true⟩
       ⟨some "GO_FREE", 0, 0, false⟩ = (⟨some "GO_FREE", 0, 0, false⟩, .http 503)) ∧
    (enforce_limit .THREAT_DAILY true ⟨.val false, .err, .val true⟩
       ⟨some "GO_FREE", 0, 0, false⟩ = (⟨some "GO_FREE", 0, 0, false⟩, .http 503)) ∧
    (enforce_limit .THREAT_DAILY true ⟨.val false, .val false, .err⟩
       ⟨some "GO_FREE", 0, 0, false⟩ = (⟨some "GO_FREE", 0, 0, false⟩, .http 503)) :=
  ⟨(counter_store_failure_fails_closed .THREAT_DAILY true ⟨.err, .val true, .val true⟩
      ⟨some "GO_FREE", 0, 0, false⟩ 3 (by decide) (by decide) rfl).1 rfl,
   (counter_store_failure_fails_closed .THREAT_DAILY true ⟨.val false, .err, .val true⟩
      ⟨some "GO_FREE", 0, 0, false⟩ 3 (by decide) (by decide) rfl).2.1
      (by decide) rfl rfl,
   (counter_store_failure_fails_closed .THREAT_DAILY true ⟨.val false, .val false, .err⟩
      ⟨some "GO_FREE", 0, 0, false⟩ 3 (by decide) (by decide) rfl).2.2.1
      (by decide) rfl rfl rfl⟩

theorem apply_update_fields (user : Account) (plan status : String)
    (expires : Option Int) (t : Int)
    (hcond : ¬(status = STATUS_ACTIVE ∧ normalize_plan (some plan) ≠ TIER_FREE
        ∧ expires = none)) :
    ∃ u : Account,
      apply_subscription_update user plan status expires (some t) = .ok u ∧
      u.plan = some plan ∧ u.subscription_status = status ∧
      u.subscription_expires_at = expires ∧
      u.last_subscription_event_at = some t := by
  unfold apply_subscription_update
  rw [if_neg hcond]
  refine ⟨_, rfl, ?_, ?_, ?_, ?_⟩ <;>
    (dsimp only <;> first
      | rfl
      | (split <;> rfl))

/-- C2: inside the webhook transaction, for an inbound event whose ledger
insert succeeds (fresh provider event id, in-transaction audit write
succeeding) and which satisfies the parse-time integrity rule that an
ACTIVE paid event carries a non-null expiry (guaranteed for every event
produced by parse_revenuecat_payload): the event is out of order exactly
when the account records a last-applied-event timestamp strictly newer than
the declared event timestamp; an out-of-order event leaves the account row
completely unchanged — plan, status, expiry and last-applied-event
timestamp included — and the created ledger row is marked
IGNORED_OUT_OF_ORDER; otherwise the event plan, status and expiry are
applied to the account, the last-applied-event timestamp is set to the
event timestamp, and the ledger row is marked APPLIED. -/
theorem webhook_out_of_order_handling (st : SysState) (ev : ParsedEvent)
    (hfresh : st.ledger.any (fun r => decide (r.event_id = ev.event_id)) = false)
    (hwf : ev.subscription_status = STATUS_ACTIVE →
       normalize_plan (some ev.plan) ≠ TIER_FREE →
       ev.subscription_expires_at ≠ none) :
    (is_out_of_order_event st.account (some ev.event_at) = true ↔
       ∃ last : Int, st.account.last_subscription_event_at = some last ∧
         ev.event_at < last) ∧
    (is_out_of_order_event st.account (some ev.event_at) = true →
       revenuecat_webhook st ev WriteResult.ok =
         ({ account := st.account,
            ledger := st.ledger ++ [⟨ev.event_id, .IGNORED_OUT_OF_ORDER⟩] },
          .ok ⟨"ok", false, ev.event_id⟩)) ∧
    (is_out_of_order_event st.account (some ev.event_at) = false →
       ∃ u : Account,
         revenuecat_webhook st ev WriteResult.ok =
           ({ account := u, ledger := st.ledger ++ [⟨ev.event_id, .APPLIED⟩] },
            .ok ⟨"ok", false, ev.event_id⟩) ∧
         u.plan = some ev.plan ∧
         u.subscription_status = ev.subscription_status ∧
         u.subscription_expires_at = ev.subscription_expires_at ∧
         u.last_subscription_event_at = some ev.event_at) := by
  refine ⟨?_, ?_, ?_⟩
  · constructor
    · intro htrue
      unfold is_out_of_order_event at htrue
      cases h : st.account.last_subscription_event_at with
      | none => rw [h] at htrue; simp at htrue
      | some l =>
        rw [h] at htrue
        simp at htrue
        exact ⟨l, rfl, htrue⟩
    · rintro ⟨last, hlast, hlt⟩
      unfold is_out_of_order_event
      rw [hlast]
      simp [hlt]
  · intro hioo
    have hstep : webhookApplyStep st.account ev =
        .ok (st.account, .IGNORED_OUT_OF_ORDER) := by
      unfold webhookApplyStep
      rw [if_pos hioo]
    unfold revenuecat_webhook
    rw [hfresh, hstep]
    rfl
  · intro hioo
    have hcond : ¬(ev.subscription_status = STATUS_ACTIVE ∧
        normalize_plan (some ev.plan) ≠ TIER_FREE ∧
        ev.subscription_expires_at = none) := by
      rintro ⟨h1, h2, h3⟩
      exact hwf h1 h2 h3
    obtain ⟨u, hu, hp, hs, he, hl⟩ := apply_update_fields st.account ev.plan
      ev.subscription_status ev.subscription_expires_at ev.event_at hcond
    have hstep : webhookApplyStep st.account ev = .ok (u, .APPLIED) := by
      unfold webhookApplyStep
      rw [if_neg (by simp [hioo]), hu]
    refine ⟨u, ?_, hp, hs, he, hl⟩
    unfold revenuecat_webhook
    rw [hfresh, hstep]
    rfl

/-- C2 witness: against an account whose last applied event is at time 20,
an event stamped 5 is recorded as IGNORED_OUT_OF_ORDER with the account
untouched, while an event stamped 30 is applied, updating plan, status,
expiry and the last-applied timestamp, with the ledger row APPLIED. -/
theorem webhook_out_of_order_handling_witness :
    (revenuecat_webhook ⟨⟨some "GO_PRO", "ACTIVE", some 100, some 20, true⟩, []⟩
       ⟨"evt_b", "CANCELLATION", "GO_FREE", "CANCELED", none, 5⟩ WriteResult.ok =
       (⟨⟨some "GO_PRO", "ACTIVE", some 100, some 20, true⟩,
         [⟨"evt_b", .IGNORED_OUT_OF_ORDER⟩]⟩, .ok ⟨"ok", false, "evt_b"⟩)) ∧
    (∃ u : Account,
       revenuecat_webhook ⟨⟨some "GO_PRO", "ACTIVE", some 100, some 20, true⟩, []⟩
         ⟨"evt_c", "RENEWAL", "GO_PRO", "ACTIVE", some 200, 30⟩ WriteResult.ok =
         (⟨u, [⟨"evt_c", .APPLIED⟩]⟩, .ok ⟨"ok", false, "evt_c"⟩) ∧
       u.plan = some "GO_PRO" ∧ u.subscription_status = "ACTIVE" ∧
       u.subscription_expires_at = some 200 ∧
       u.last_subscription_event_at = some 30) :=
  ⟨(webhook_out_of_order_handling
      ⟨⟨some "GO_PRO", "ACTIVE", some 100, some 20, true⟩, []⟩
      ⟨"evt_b", "CANCELLATION", "GO_FREE", "CANCELED", none, 5⟩
      rfl (by decide)).2.1 rfl,
   (webhook_out_of_order_handling
      ⟨⟨some "GO_PRO", "ACTIVE", some 100, some 20, true⟩, []⟩
      ⟨"evt_c", "RENEWAL", "GO_PRO", "ACTIVE", some 200, 30⟩
      rfl (by decide)).2.2 rfl⟩

/-- C3: submitting a webhook whose provider event id is already in the
ledger is idempotent: the insert collides with the unique event-id
constraint, the transaction is aborted leaving the account and the ledger
exactly as they were (no second ledger row, no reapplied account mutation),
and the handler returns the success response with status ok, idempotent
true and the event id; consequently, after any successful fresh application
of an event, a second delivery of the same event id leaves all state
identical to the single submission. -/
theorem webhook_duplicate_idempotent (st : SysState) (ev : ParsedEvent)
    (lw lw2 : WriteResult) :
    (st.ledger.any (fun r => decide (r.event_id = ev.event_id)) = true →
       revenuecat_webhook st ev lw = (st, .ok ⟨"ok", true, ev.event_id⟩)) ∧
    (∀ (st1 : SysState) (r : WebhookResponse),
       revenuecat_webhook st ev lw = (st1, .ok r) → r.idempotent = false →
       revenuecat_webhook st1 ev lw2 = (st1, .ok ⟨"ok", true, ev.event_id⟩)) := by
  have hdup : ∀ (s : SysState),
      s.ledger.any (fun r => decide (r.event_id = ev.event_id)) = true →
      ∀ (lw3 : WriteResult),
        revenuecat_webhook s ev lw3 = (s, .ok ⟨"ok", true, ev.event_id⟩) := by
    intro s hs lw3
    unfold revenuecat_webhook
    rw [hs]
    rfl
  refine ⟨fun h => hdup st h lw, ?_⟩
  intro st1 r hcall hid
  cases hfr : st.ledger.any (fun rr => decide (rr.event_id = ev.event_id)) with
  | true =>
    rw [hdup st hfr lw] at hcall
    injection hcall with ha hb
    injection hb with hb2
    rw [← hb2] at hid
    simp at hid
  | false =>
    unfold revenuecat_webhook at hcall
    rw [hfr] at hcall
    cases lw with
    | fail => simp at hcall
    | ok =>
      cases hstep : webhookApplyStep st.account ev with
      | error e => rw [hstep] at hcall; simp at hcall
      | ok p =>
        obtain ⟨u, ps⟩ := p
        rw [hstep] at hcall
        simp only [] at hcall
        injection hcall with ha hb
        rw [← ha]
        apply hdup
        simp

/-- C3 witness: a redelivery of event id evt_dup against a ledger that
already holds it leaves the state unchanged and returns the idempotent
acknowledgment, and a second delivery right after a fresh successful
application does the same. -/
theorem webhook_duplicate_idempotent_witness :
    (revenuecat_webhook
       ⟨⟨some "GO_FREE", "ACTIVE", none, none, false⟩, [⟨"evt_dup", .APPLIED⟩]⟩
       ⟨"evt_dup", "RENEWAL", "GO_PRO", "ACTIVE", some 100, 10⟩ WriteResult.ok =
       (⟨⟨some "GO_FREE", "ACTIVE", none, none, false⟩, [⟨"evt_dup", .APPLIED⟩]⟩,
        .ok ⟨"ok", true, "evt_dup"⟩)) ∧
    (revenuecat_webhook
       ⟨⟨some "GO_PRO", "ACTIVE", some 100, some 10, true⟩, [⟨"evt_2", .APPLIED⟩]⟩
       ⟨"evt_2", "INITIAL_PURCHASE", "GO_PRO", "ACTIVE", some 100, 10⟩ WriteResult.ok =
       (⟨⟨some "GO_PRO", "ACTIVE", some 100, some 10, true⟩, [⟨"evt_2", .APPLIED⟩]⟩,
        .ok ⟨"ok", true, "evt_2"⟩)) :=
  ⟨(webhook_duplicate_idempotent
      ⟨⟨some "GO_FREE", "ACTIVE", none, none, false⟩, [⟨"evt_dup", .APPLIED⟩]⟩
      ⟨"evt_dup", "RENEWAL", "GO_PRO", "ACTIVE", some 100, 10⟩
      WriteResult.ok WriteResult.ok).1 rfl,
   (webhook_duplicate_idempotent
      ⟨⟨some "GO_FREE", "ACTIVE", none, none, false⟩, []⟩
      ⟨"evt_2", "INITIAL_PURCHASE", "GO_PRO", "ACTIVE", some 100, 10⟩
      WriteResult.ok WriteResult.ok).2
      ⟨⟨some "GO_PRO", "ACTIVE", some 100, some 10, true⟩, [⟨"evt_2", .APPLIED⟩]⟩
      ⟨"ok", false, "evt_2"⟩ rfl rfl⟩

end Suraksha
